import Mathlib

/-!
# Loadcell selftest part (`selftest_loadcell.cpp`)

A shallow embedding of `CSelftestPart_Loadcell`: its constructor, its destructor and its
seventeen state functions, written as pure functions over an explicit state.

* The hardware singletons the part talks to (`thermalManager`, `endstops`, `loadcell`, the two
  fans, the planner and the g-code queue, the FSM phase) are the fields of `Hardware`.
* What a state function reads from the outside world during one call (raw load, filtered load,
  the clock, the hotend temperature, the button, the planner queue) is an `Inputs` record.
* `int32_t` values are integers between `INT32_MIN` and `INT32_MAX`; `uint32_t` and `uint8_t`
  arithmetic is arithmetic on naturals reduced modulo `2^32` and `2^8`.
* Celsius values and Z coordinates are `float` in the source. They are only copied and compared,
  so they are modelled by rationals.
-/

namespace Loadcell

/-! ## Machine integers -/

def INT32_MIN : Int := -2147483648

def INT32_MAX : Int := 2147483647

def UINT32_MOD : Nat := 4294967296

def UINT8_MOD : Nat := 256

/-- Subtraction of two `uint32_t` values, as in `GetTime() - time_start`. -/
def u32_sub (a b : Nat) : Nat := (a % UINT32_MOD + UINT32_MOD - b % UINT32_MOD) % UINT32_MOD

/-- Product of two `uint32_t` values, as in `countdown_sec * 1000`. -/
def u32_mul (a b : Nat) : Nat := (a * b) % UINT32_MOD

/-- Conversion of a `uint32_t` to `int32_t` (two's complement). -/
def u32_to_i32 (a : Nat) : Int :=
  if a % UINT32_MOD < 2147483648 then ((a % UINT32_MOD : Nat) : Int)
  else ((a % UINT32_MOD : Nat) : Int) - 4294967296

/-- Conversion of a signed value to `uint8_t`. -/
def to_u8 (a : Int) : Nat := (a % 256).toNat

/-- Predicate: the integer is representable as an `int32_t`. -/
def is_i32 (a : Int) : Prop := INT32_MIN ≤ a ∧ a ≤ INT32_MAX

instance (a : Int) : Decidable (is_i32 a) := by
  unfold is_i32; exact inferInstance

/-! ## Enumerations -/

/-- Verdict of a state function (the values of `LoopResult` the part uses). -/
inductive LoopResult where
  | RunNext
  | RunCurrent
  | MarkLoop
  | GoToMark
  | Fail
  | Abort
deriving DecidableEq, Repr

/-- The phases of `PhasesSelftest` that the loadcell part reports. -/
inductive PhasesSelftest where
  | Loadcell_move_away
  | Loadcell_tool_select
  | Loadcell_cooldown
  | Loadcell_fail
  | Loadcell_user_tap_ask_abort
  | Loadcell_user_tap_countdown
  | Loadcell_user_tap_check
  | Loadcell_user_tap_ok
deriving DecidableEq, Repr

/-- Button response read by `stateAskAbort`; `Other` stands for every value that reaches the
`default` label of its `switch`. -/
inductive Response where
  | Abort
  | Continue
  | Other
deriving DecidableEq, Repr

/-- Argument of `loadcell.Tare`. -/
inductive TareMode where
  | Continuous
  | Static
deriving DecidableEq, Repr

/-- Calls into the motion subsystem and the g-code queue, in the order they are made. -/
inductive MotionCall where
  | synchronize
  | validate_homing_move
  | set_current_from_steppers
  | sync_plan_position
  | start_sensorless_homing_per_axis_Z
  | line_to_current_position (z : ℚ) (feedrate : Nat)
  | enqueue_tool_change (tool_nr : Nat)
  | enqueue_goto_xy_50_50
deriving DecidableEq, Repr

/-! ## Data model -/

/-- Configuration `LoadcellConfig_t` (the part name, used only for logging, is left out; the two
fan references are the fans of `Hardware`). -/
structure LoadcellConfig_t where
  tool_nr : Nat
  cool_temp : Int
  countdown_sec : Nat
  countdown_load_error_value : Int
  tap_min_load_ok : Int
  tap_max_load_ok : Int
  tap_timeout_ms : Nat
  z_extra_pos : ℚ
  z_extra_pos_fr : Nat
  max_validation_time : Nat
deriving DecidableEq, Repr

/-- Result `SelftestLoadcell_t`, written through `rResult`. -/
structure SelftestLoadcell_t where
  progress : Nat
  countdown : Nat
  pressed_too_soon : Bool
deriving DecidableEq, Repr

/-- Value `SelftestLoadcell_t::countdown_undef`. -/
def countdown_undef : Nat := 255

/-- State of one `CFanCtl` as far as the selftest override is concerned. -/
structure CFanCtl where
  selftest_mode : Bool
  pwm : Nat
  pwm_before_selftest : Nat
deriving DecidableEq, Repr

/-- The hardware singletons the part reads and writes. `SENSORLESS_HOMING` is the build
option of that name; no function changes it. -/
structure Hardware where
  temp_hotend_target : Nat → ℚ
  temp_to_display : Nat → ℚ
  endstops_enabled : Bool
  print_fan : CFanCtl
  heatbreak_fan : CFanCtl
  loadcell_high_precision : Bool
  loadcell_tares : List TareMode
  fsm_phase : Option PhasesSelftest
  current_position_z : ℚ
  motion : List MotionCall
  delayed_ms : Nat
  SENSORLESS_HOMING : Bool

/-- Private members of `CSelftestPart_Loadcell`. -/
structure Members where
  currentZ : ℚ
  targetZ : ℚ
  begin_target_temp : ℚ
  time_start : Nat
  time_start_countdown : Nat
  time_start_tap : Nat
  need_cooling : Bool
deriving DecidableEq, Repr

/-- Members the constructor's initialiser list does not mention: they start with whatever
value the storage holds. -/
structure Indeterminate where
  time_start_countdown : Nat
  time_start_tap : Nat
  need_cooling : Bool
deriving DecidableEq, Repr

/-- Everything one state function can change: the hardware, the members and the result. -/
structure State where
  hw : Hardware
  self : Members
  rResult : SelftestLoadcell_t

/-- What one call of a state function reads from the outside world. -/
structure Inputs where
  raw_load : Int
  buffer_valid : Bool
  high_pass_load : Int
  now : Nat
  degHotend : Nat → ℚ
  button : Response
  movesplanned : Bool
  steppers_z : ℚ
  active_extruder : Nat

/-! ## Collaborators that are declared outside this translation unit -/

/-- Modelled from the spec: `endstops.enable` is the motion interface's
`enable_limit_monitoring(bool)`; it stores its argument as the limit-monitoring state. -/
def endstops_enable (onoff : Bool) (hw : Hardware) : Hardware :=
  { hw with endstops_enabled := onoff }

/-- Modelled from the spec: `thermalManager.setTargetHotend` is the thermal interface's
`set_target(tool, value)`; it stores the value as the target of that tool's heater. -/
def setTargetHotend (celsius : ℚ) (e : Nat) (hw : Hardware) : Hardware :=
  { hw with temp_hotend_target := fun i => if i = e then celsius else hw.temp_hotend_target i }

/-- Modelled from the spec: `marlin_server_set_temp_to_display` stores the value shown for
the tool. -/
def marlin_server_set_temp_to_display (celsius : ℚ) (e : Nat) (hw : Hardware) : Hardware :=
  { hw with temp_to_display := fun i => if i = e then celsius else hw.temp_to_display i }

/-- Modelled from the spec: `CFanCtl::EnterSelftestMode` is the fan interface's
`enter_override_mode()`. -/
def CFanCtl.EnterSelftestMode (f : CFanCtl) : CFanCtl :=
  { f with selftest_mode := true, pwm_before_selftest := f.pwm }

/-- Modelled from the spec: `CFanCtl::SelftestSetPWM` is the fan interface's
`set_override_power(0–255)`. -/
def CFanCtl.SelftestSetPWM (pwm : Nat) (f : CFanCtl) : CFanCtl :=
  { f with pwm := pwm }

/-- Modelled from the spec: `CFanCtl::ExitSelftestMode` is the fan interface's
`exit_override_mode()`; the source says the power set during the selftest "will be restored by
ExitSelftestMode". -/
def CFanCtl.ExitSelftestMode (f : CFanCtl) : CFanCtl :=
  { f with selftest_mode := false, pwm := f.pwm_before_selftest }

/-- Modelled from the spec: `loadcell.EnableHighPrecision` is the load sensor's
`enable_high_precision()`. -/
def loadcell_EnableHighPrecision (hw : Hardware) : Hardware :=
  { hw with loadcell_high_precision := true }

/-- Modelled from the spec: `loadcell.Tare` is the load sensor's `tare(mode)`; the calls are
recorded in order. -/
def loadcell_Tare (mode : TareMode) (hw : Hardware) : Hardware :=
  { hw with loadcell_tares := hw.loadcell_tares ++ [mode] }

/-- Modelled from the spec: `IPartHandler::SetFsmPhase` is the phase reporter's
`set_phase(phase_id)`. -/
def SetFsmPhase (phase : PhasesSelftest) (hw : Hardware) : Hardware :=
  { hw with fsm_phase := some phase }

/-- A call into the motion subsystem or the g-code queue, recorded in order. -/
def motion_call (c : MotionCall) (hw : Hardware) : Hardware :=
  { hw with motion := hw.motion ++ [c] }

/-- Call `osDelay(ms)`. -/
def osDelay (ms : Nat) (hw : Hardware) : Hardware :=
  { hw with delayed_ms := hw.delayed_ms + ms }

/-- Modelled from the spec: `scale_percent_avoid_overflow` (from `algorithm_scale.hpp`) "maps a
raw signed value into a 0–100 progress percentage given a floor and ceiling, saturating rather
than overflowing": values at or below the floor give 0, values at or above the ceiling give 100,
values in between are scaled linearly. -/
def scale_percent_avoid_overflow (val low high : Int) : Int :=
  if val ≤ low then 0
  else if high ≤ val then 100
  else (val - low) * 100 / (high - low)

/-- Modelled from the spec: `IsInClosedRange` is "load within [tap_min_load_ok,
tap_max_load_ok] inclusive". -/
def IsInClosedRange (value low high : Int) : Bool :=
  decide (low ≤ value) && decide (value ≤ high)

/-! ## Constructor and destructor -/

/-- Constructor `CSelftestPart_Loadcell::CSelftestPart_Loadcell`: `time` is what
`SelftestInstance().GetTime()` returns, `result` the object `rResult` refers to. -/
def CSelftestPart_Loadcell_ctor (time : Nat) (ind : Indeterminate) (result : SelftestLoadcell_t)
    (hw : Hardware) : State :=
  { hw := endstops_enable true (setTargetHotend 0 0 hw)
    self :=
      { currentZ := 0
        targetZ := 0
        begin_target_temp := hw.temp_hotend_target 0
        time_start := time
        time_start_countdown := ind.time_start_countdown
        time_start_tap := ind.time_start_tap
        need_cooling := ind.need_cooling }
    rResult := result }

/-- Destructor `CSelftestPart_Loadcell::~CSelftestPart_Loadcell`: the hardware it leaves. -/
def CSelftestPart_Loadcell_dtor (s : State) : Hardware :=
  endstops_enable false (setTargetHotend s.self.begin_target_temp 0 s.hw)

/-! ## State functions -/

def stateMoveUpInit (_rConfig : LoadcellConfig_t) (_inp : Inputs) (s : State) :
    LoopResult × State :=
  (LoopResult.RunNext, { s with hw := SetFsmPhase PhasesSelftest.Loadcell_move_away s.hw })

def stateMoveUp (rConfig : LoadcellConfig_t) (inp : Inputs) (s : State) : LoopResult × State :=
  let hw1 := motion_call MotionCall.validate_homing_move (motion_call MotionCall.synchronize s.hw)
  let hw2 := motion_call MotionCall.set_current_from_steppers hw1
  let hw3 := motion_call MotionCall.sync_plan_position
    { hw2 with current_position_z := inp.steppers_z }
  let hw4 := if hw3.SENSORLESS_HOMING then
      motion_call MotionCall.start_sensorless_homing_per_axis_Z hw3
    else hw3
  let currentZ := hw4.current_position_z
  let targetZ := rConfig.z_extra_pos
  let self1 := { s.self with currentZ := currentZ, targetZ := targetZ }
  if targetZ > currentZ then
    (LoopResult.RunNext,
      { s with
        hw := motion_call
          (MotionCall.line_to_current_position rConfig.z_extra_pos rConfig.z_extra_pos_fr)
          { hw4 with current_position_z := rConfig.z_extra_pos }
        self := self1 })
  else
    (LoopResult.RunNext, { s with hw := hw4, self := self1 })

def stateMoveUpWaitFinish (_rConfig : LoadcellConfig_t) (inp : Inputs) (s : State) :
    LoopResult × State :=
  if inp.movesplanned then
    (LoopResult.RunCurrent, { s with self := { s.self with currentZ := s.hw.current_position_z } })
  else
    (LoopResult.RunNext, s)

def stateToolSelectInit (rConfig : LoadcellConfig_t) (inp : Inputs) (s : State) :
    LoopResult × State :=
  if inp.active_extruder ≠ rConfig.tool_nr then
    (LoopResult.RunNext,
      { s with
        hw := motion_call MotionCall.enqueue_goto_xy_50_50
          (motion_call (MotionCall.enqueue_tool_change rConfig.tool_nr)
            (SetFsmPhase PhasesSelftest.Loadcell_tool_select s.hw)) })
  else
    (LoopResult.RunNext, s)

def stateToolSelectWaitFinish (_rConfig : LoadcellConfig_t) (inp : Inputs) (s : State) :
    LoopResult × State :=
  if inp.movesplanned then (LoopResult.RunCurrent, s) else (LoopResult.RunNext, s)

def stateConnectionCheck (rConfig : LoadcellConfig_t) (inp : Inputs) (s : State) :
    LoopResult × State :=
  let raw_load := inp.raw_load
  if raw_load = INT32_MIN then
    (LoopResult.Fail, { s with hw := SetFsmPhase PhasesSelftest.Loadcell_fail s.hw })
  else if raw_load = INT32_MAX then
    (LoopResult.Fail, { s with hw := SetFsmPhase PhasesSelftest.Loadcell_fail s.hw })
  else
    let hw1 := osDelay 200 s.hw
    if !inp.buffer_valid || decide (raw_load = 0) then
      if u32_sub inp.now s.self.time_start > rConfig.max_validation_time then
        (LoopResult.Fail, { s with hw := SetFsmPhase PhasesSelftest.Loadcell_fail hw1 })
      else
        (LoopResult.RunCurrent, { s with hw := hw1 })
    else
      (LoopResult.RunNext,
        { s with hw := loadcell_Tare TareMode.Continuous (loadcell_EnableHighPrecision hw1) })

def stateCooldownInit (rConfig : LoadcellConfig_t) (inp : Inputs) (s : State) :
    LoopResult × State :=
  let hw1 := SetFsmPhase PhasesSelftest.Loadcell_cooldown s.hw
  let hw2 := setTargetHotend 0 rConfig.tool_nr hw1
  let hw3 := marlin_server_set_temp_to_display 0 rConfig.tool_nr hw2
  let temp := inp.degHotend rConfig.tool_nr
  let need_cooling : Bool := decide (temp > (rConfig.cool_temp : ℚ))
  let self1 := { s.self with need_cooling := need_cooling }
  if need_cooling then
    (LoopResult.RunNext,
      { s with
        hw :=
          { hw3 with
            print_fan := (hw3.print_fan.EnterSelftestMode).SelftestSetPWM 255
            heatbreak_fan := (hw3.heatbreak_fan.EnterSelftestMode).SelftestSetPWM 255 }
        self := self1 })
  else
    (LoopResult.RunNext, { s with hw := hw3, self := self1 })

def stateCooldown (rConfig : LoadcellConfig_t) (inp : Inputs) (s : State) : LoopResult × State :=
  let temp := inp.degHotend rConfig.tool_nr
  if temp > (rConfig.cool_temp : ℚ) then (LoopResult.RunCurrent, s) else (LoopResult.RunNext, s)

def stateCooldownDeinit (_rConfig : LoadcellConfig_t) (_inp : Inputs) (s : State) :
    LoopResult × State :=
  if s.self.need_cooling then
    (LoopResult.RunNext,
      { s with
        hw :=
          { s.hw with
            print_fan := s.hw.print_fan.ExitSelftestMode
            heatbreak_fan := s.hw.heatbreak_fan.ExitSelftestMode } })
  else
    (LoopResult.RunNext, s)

def stateCycleMark (_rConfig : LoadcellConfig_t) (_inp : Inputs) (s : State) :
    LoopResult × State :=
  (LoopResult.MarkLoop, s)

def stateAskAbortInit (_rConfig : LoadcellConfig_t) (_inp : Inputs) (s : State) :
    LoopResult × State :=
  (LoopResult.RunNext,
    { s with hw := SetFsmPhase PhasesSelftest.Loadcell_user_tap_ask_abort s.hw })

def stateAskAbort (_rConfig : LoadcellConfig_t) (inp : Inputs) (s : State) :
    LoopResult × State :=
  match inp.button with
  | Response.Abort => (LoopResult.Abort, s)
  | Response.Continue => (LoopResult.RunNext, s)
  | Response.Other => (LoopResult.RunCurrent, s)

def stateTapCheckCountDownInit (_rConfig : LoadcellConfig_t) (inp : Inputs) (s : State) :
    LoopResult × State :=
  (LoopResult.RunNext,
    { hw := SetFsmPhase PhasesSelftest.Loadcell_user_tap_countdown s.hw
      self := { s.self with time_start_countdown := inp.now }
      rResult := { s.rResult with countdown := countdown_undef, pressed_too_soon := true } })

def stateTapCheckCountDown (rConfig : LoadcellConfig_t) (inp : Inputs) (s : State) :
    LoopResult × State :=
  let load := inp.high_pass_load
  let res1 := { s.rResult with
    progress := to_u8 (scale_percent_avoid_overflow load 0 rConfig.tap_min_load_ok) }
  if load ≥ rConfig.countdown_load_error_value then
    (LoopResult.GoToMark, { s with rResult := { res1 with pressed_too_soon := true } })
  else
    let countdown_running_ms := u32_sub inp.now s.self.time_start_countdown
    let new_countdown0 :=
      to_u8 (min (u32_to_i32 (countdown_running_ms / 1000)) (u32_to_i32 rConfig.countdown_sec))
    let new_countdown := (u32_sub rConfig.countdown_sec new_countdown0) % UINT8_MOD
    let res2 := { res1 with countdown := new_countdown }
    if countdown_running_ms ≥ u32_mul rConfig.countdown_sec 1000 then
      (LoopResult.RunNext, { s with rResult := res2 })
    else
      (LoopResult.RunCurrent, { s with rResult := res2 })

def stateTapCheckInit (_rConfig : LoadcellConfig_t) (inp : Inputs) (s : State) :
    LoopResult × State :=
  (LoopResult.RunNext,
    { hw := SetFsmPhase PhasesSelftest.Loadcell_user_tap_check s.hw
      self := { s.self with time_start_tap := inp.now }
      rResult := { s.rResult with countdown := countdown_undef } })

def stateTapCheck (rConfig : LoadcellConfig_t) (inp : Inputs) (s : State) : LoopResult × State :=
  if u32_sub inp.now s.self.time_start_tap ≥ rConfig.tap_timeout_ms then
    (LoopResult.GoToMark, s)
  else
    let load := inp.high_pass_load
    let pass := IsInClosedRange load rConfig.tap_min_load_ok rConfig.tap_max_load_ok
    let res1 := { s.rResult with
      progress := to_u8 (scale_percent_avoid_overflow load 0 rConfig.tap_min_load_ok) }
    (if pass then LoopResult.RunNext else LoopResult.RunCurrent, { s with rResult := res1 })

/-- State function `stateTapOk`; the assignment `rResult.progress = 100` that follows its
`return` is never executed. -/
def stateTapOk (_rConfig : LoadcellConfig_t) (_inp : Inputs) (s : State) : LoopResult × State :=
  (LoopResult.RunNext, { s with hw := SetFsmPhase PhasesSelftest.Loadcell_user_tap_ok s.hw })

/-! ## Sequences of state-function calls -/

/-- The seventeen state functions of the part, in the order of its state table. -/
inductive StateId where
  | MoveUpInit
  | MoveUp
  | MoveUpWaitFinish
  | ToolSelectInit
  | ToolSelectWaitFinish
  | ConnectionCheck
  | CooldownInit
  | Cooldown
  | CooldownDeinit
  | CycleMark
  | AskAbortInit
  | AskAbort
  | TapCheckCountDownInit
  | TapCheckCountDown
  | TapCheckInit
  | TapCheck
  | TapOk
deriving DecidableEq, Repr

/-- The state function a state of the table invokes. -/
def invoke (rConfig : LoadcellConfig_t) : StateId → Inputs → State → LoopResult × State
  | StateId.MoveUpInit => stateMoveUpInit rConfig
  | StateId.MoveUp => stateMoveUp rConfig
  | StateId.MoveUpWaitFinish => stateMoveUpWaitFinish rConfig
  | StateId.ToolSelectInit => stateToolSelectInit rConfig
  | StateId.ToolSelectWaitFinish => stateToolSelectWaitFinish rConfig
  | StateId.ConnectionCheck => stateConnectionCheck rConfig
  | StateId.CooldownInit => stateCooldownInit rConfig
  | StateId.Cooldown => stateCooldown rConfig
  | StateId.CooldownDeinit => stateCooldownDeinit rConfig
  | StateId.CycleMark => stateCycleMark rConfig
  | StateId.AskAbortInit => stateAskAbortInit rConfig
  | StateId.AskAbort => stateAskAbort rConfig
  | StateId.TapCheckCountDownInit => stateTapCheckCountDownInit rConfig
  | StateId.TapCheckCountDown => stateTapCheckCountDown rConfig
  | StateId.TapCheckInit => stateTapCheckInit rConfig
  | StateId.TapCheck => stateTapCheck rConfig
  | StateId.TapOk => stateTapOk rConfig

/-- State after a finite sequence of state-function calls, each with the inputs it reads. -/
def run (rConfig : LoadcellConfig_t) : List (StateId × Inputs) → State → State
  | [], s => s
  | (st, inp) :: rest, s => run rConfig rest (invoke rConfig st inp s).2

/-! ## Concrete configurations, used to evaluate the definitions -/

/-- Configuration of the spec's scenarios A to C, for tool 0. -/
def scenario_config : LoadcellConfig_t :=
  { tool_nr := 0
    cool_temp := 50
    countdown_sec := 5
    countdown_load_error_value := 3000
    tap_min_load_ok := 500
    tap_max_load_ok := 2000
    tap_timeout_ms := 3000
    z_extra_pos := 100
    z_extra_pos_fr := 10
    max_validation_time := 1000 }

/-- The same configuration for the second tool. -/
def scenario_config_tool1 : LoadcellConfig_t :=
  { scenario_config with tool_nr := 1 }

/-- Hardware with hotend 0 heating to `t0`, hotend 1 heating to `t1`, limit monitoring in
state `b`, both fans under normal control and nothing else going on. -/
def hw_example (t0 t1 : ℚ) (b : Bool) : Hardware :=
  { temp_hotend_target := fun i => if i = 0 then t0 else if i = 1 then t1 else 0
    temp_to_display := fun i => if i = 0 then t0 else if i = 1 then t1 else 0
    endstops_enabled := b
    print_fan := { selftest_mode := false, pwm := 0, pwm_before_selftest := 0 }
    heatbreak_fan := { selftest_mode := false, pwm := 128, pwm_before_selftest := 0 }
    loadcell_high_precision := false
    loadcell_tares := []
    fsm_phase := none
    current_position_z := 0
    motion := []
    delayed_ms := 0
    SENSORLESS_HOMING := true }

def ind_example : Indeterminate :=
  { time_start_countdown := 0, time_start_tap := 0, need_cooling := false }

def result_example : SelftestLoadcell_t :=
  { progress := 0, countdown := countdown_undef, pressed_too_soon := false }

/-- Inputs of one call: raw load, buffer validity, filtered load, clock and hotend temperature
as given; no button pressed, planner idle, tool 0 active. -/
def inputs_example (raw_load : Int) (buffer_valid : Bool) (high_pass_load : Int) (now : Nat)
    (temp : ℚ) : Inputs :=
  { raw_load := raw_load
    buffer_valid := buffer_valid
    high_pass_load := high_pass_load
    now := now
    degHotend := fun _ => temp
    button := Response.Other
    movesplanned := false
    steppers_z := 0
    active_extruder := 0 }

/-- A part constructed at time 0 on `hw_example 210 215 b`. -/
def state_example (b : Bool) : State :=
  CSelftestPart_Loadcell_ctor 0 ind_example result_example (hw_example 210 215 b)

/-- The scenario configuration with a countdown of 300 seconds. -/
def scenario_config_long_countdown : LoadcellConfig_t :=
  { scenario_config with countdown_sec := 300 }

/-- The state `state_example false` with the print fan already in selftest mode. -/
def state_print_fan_overridden : State :=
  { state_example false with
    hw := { (state_example false).hw with
      print_fan := { selftest_mode := true, pwm := 80, pwm_before_selftest := 0 } } }

/-- Consecutive calls of `stateCooldown`, one for each of the given inputs. -/
def cooldown_calls (inps : List Inputs) : List (StateId × Inputs) :=
  inps.map (fun inp => (StateId.Cooldown, inp))

/-! ## Theorems -/

/-- C1: when the raw value read by `stateConnectionCheck` is `INT32_MIN` or `INT32_MAX`, the
call returns `Fail`, reports the phase `Loadcell_fail` and does nothing else: the hardware
differs from the one before the call in the reported phase only (no high-precision mode, no
tare, no motion call, no delay), and members and result are untouched. -/
theorem stateConnectionCheck_sentinel_fails (rConfig : LoadcellConfig_t) (inp : Inputs)
    (s : State) (h : inp.raw_load = INT32_MIN ∨ inp.raw_load = INT32_MAX) :
    (stateConnectionCheck rConfig inp s).1 = LoopResult.Fail ∧
    (stateConnectionCheck rConfig inp s).2.hw.fsm_phase = some PhasesSelftest.Loadcell_fail ∧
    (stateConnectionCheck rConfig inp s).2.hw =
      { s.hw with fsm_phase := some PhasesSelftest.Loadcell_fail } ∧
    (stateConnectionCheck rConfig inp s).2.hw.loadcell_high_precision =
      s.hw.loadcell_high_precision ∧
    (stateConnectionCheck rConfig inp s).2.hw.loadcell_tares = s.hw.loadcell_tares ∧
    (stateConnectionCheck rConfig inp s).2.hw.motion = s.hw.motion ∧
    (stateConnectionCheck rConfig inp s).2.self = s.self ∧
    (stateConnectionCheck rConfig inp s).2.rResult = s.rResult := by
  rcases h with h | h
  · simp [stateConnectionCheck, h, SetFsmPhase]
  · have hne : ¬ INT32_MAX = INT32_MIN := by decide
    simp [stateConnectionCheck, h, hne, SetFsmPhase]

theorem stateConnectionCheck_sentinel_fails_witness :
    ((inputs_example INT32_MAX true 0 10 20).raw_load = INT32_MIN ∨
      (inputs_example INT32_MAX true 0 10 20).raw_load = INT32_MAX) ∧
    (stateConnectionCheck scenario_config (inputs_example INT32_MAX true 0 10 20)
      (state_example true)).1 = LoopResult.Fail :=
  ⟨Or.inr rfl,
    (stateConnectionCheck_sentinel_fails scenario_config (inputs_example INT32_MAX true 0 10 20)
      (state_example true) (Or.inr rfl)).1⟩

/-- C2, as stated, fails: with limit monitoring enabled before construction, constructing the
part and destroying it without any step leaves limit monitoring disabled. -/
theorem ctor_dtor_endstops_not_restored :
    (CSelftestPart_Loadcell_dtor
        (CSelftestPart_Loadcell_ctor 0 ind_example result_example
          (hw_example 210 215 true))).endstops_enabled
      ≠ (hw_example 210 215 true).endstops_enabled := by
  decide

/-- C2, amended: whatever the limit-monitoring state was before construction, the constructor
enables it and the destructor, run without any step in between, disables it; so afterwards it
equals the earlier state exactly when that state was "disabled". -/
theorem ctor_dtor_endstops_disabled (time : Nat) (ind : Indeterminate)
    (result : SelftestLoadcell_t) (hw : Hardware) :
    (CSelftestPart_Loadcell_ctor time ind result hw).hw.endstops_enabled = true ∧
    (CSelftestPart_Loadcell_dtor
      (CSelftestPart_Loadcell_ctor time ind result hw)).endstops_enabled = false ∧
    ((CSelftestPart_Loadcell_dtor
        (CSelftestPart_Loadcell_ctor time ind result hw)).endstops_enabled = hw.endstops_enabled
      ↔ hw.endstops_enabled = false) := by
  refine ⟨rfl, rfl, ?_⟩
  show false = hw.endstops_enabled ↔ hw.endstops_enabled = false
  exact eq_comm

/-- C3, the code at an input where it breaks the claim: the part is built for tool 1 while
hotend 0 heats to 210 and hotend 1 to 215. The constructor switches hotend 0 off,
`stateCooldownInit` switches hotend 1 off, and the destructor gives hotend 0 its 210 back but
leaves hotend 1 at 0. -/
theorem dtor_leaves_tested_hotend_off :
    (hw_example 210 215 false).temp_hotend_target 1 = 215 ∧
    (run scenario_config_tool1 [(StateId.CooldownInit, inputs_example 5 true 0 10 60)]
      (state_example false)).hw.temp_hotend_target 1 = 0 ∧
    (CSelftestPart_Loadcell_dtor
      (run scenario_config_tool1 [(StateId.CooldownInit, inputs_example 5 true 0 10 60)]
        (state_example false))).temp_hotend_target 1 = 0 ∧
    (CSelftestPart_Loadcell_dtor
      (run scenario_config_tool1 [(StateId.CooldownInit, inputs_example 5 true 0 10 60)]
        (state_example false))).temp_hotend_target 0 = 210 := by
  decide

/-- C4, the code at an input where it breaks the claim: the hotend is at 60 degrees with
`cool_temp` 50, so `stateCooldownInit` puts both fans in selftest mode; `stateCooldown` answers
`RunCurrent`; the part is destroyed at that point, before `stateCooldownDeinit`. Both fans are
still in selftest mode, at power 255, after the destructor. -/
theorem dtor_leaves_fans_in_selftest_mode :
    (hw_example 210 215 false).print_fan.selftest_mode = false ∧
    (hw_example 210 215 false).heatbreak_fan.selftest_mode = false ∧
    (stateCooldown scenario_config (inputs_example 5 true 0 20 60)
      (run scenario_config [(StateId.CooldownInit, inputs_example 5 true 0 10 60)]
        (state_example false))).1 = LoopResult.RunCurrent ∧
    (CSelftestPart_Loadcell_dtor
      (run scenario_config
        [(StateId.CooldownInit, inputs_example 5 true 0 10 60),
          (StateId.Cooldown, inputs_example 5 true 0 20 60)]
        (state_example false))).print_fan =
      { selftest_mode := true, pwm := 255, pwm_before_selftest := 0 } ∧
    (CSelftestPart_Loadcell_dtor
      (run scenario_config
        [(StateId.CooldownInit, inputs_example 5 true 0 10 60),
          (StateId.Cooldown, inputs_example 5 true 0 20 60)]
        (state_example false))).heatbreak_fan =
      { selftest_mode := true, pwm := 255, pwm_before_selftest := 128 } := by
  decide

/-- C5: for a raw reading that is neither sentinel, with `elapsed = now - time_start` in
`uint32_t` arithmetic. If the buffered reading is invalid or the raw reading is zero, the verdict
is `Fail` exactly when `elapsed > max_validation_time` (and then the phase is `Loadcell_fail`)
and `RunCurrent` exactly when `elapsed ≤ max_validation_time`, and the sensor is neither put in
high-precision mode nor tared. If the reading is valid and nonzero, the verdict is `RunNext`,
high-precision mode is on and one continuous-mode tare has been added. -/
theorem stateConnectionCheck_validation (rConfig : LoadcellConfig_t) (inp : Inputs) (s : State)
    (hmin : inp.raw_load ≠ INT32_MIN) (hmax : inp.raw_load ≠ INT32_MAX) :
    ((inp.buffer_valid = false ∨ inp.raw_load = 0) →
      ((stateConnectionCheck rConfig inp s).1 = LoopResult.Fail ↔
        u32_sub inp.now s.self.time_start > rConfig.max_validation_time) ∧
      ((stateConnectionCheck rConfig inp s).1 = LoopResult.RunCurrent ↔
        u32_sub inp.now s.self.time_start ≤ rConfig.max_validation_time) ∧
      ((stateConnectionCheck rConfig inp s).1 = LoopResult.Fail →
        (stateConnectionCheck rConfig inp s).2.hw.fsm_phase =
          some PhasesSelftest.Loadcell_fail) ∧
      (stateConnectionCheck rConfig inp s).2.hw.loadcell_high_precision =
        s.hw.loadcell_high_precision ∧
      (stateConnectionCheck rConfig inp s).2.hw.loadcell_tares = s.hw.loadcell_tares) ∧
    ((inp.buffer_valid = true ∧ inp.raw_load ≠ 0) →
      (stateConnectionCheck rConfig inp s).1 = LoopResult.RunNext ∧
      (stateConnectionCheck rConfig inp s).2.hw.loadcell_high_precision = true ∧
      (stateConnectionCheck rConfig inp s).2.hw.loadcell_tares =
        s.hw.loadcell_tares ++ [TareMode.Continuous]) := by
  constructor
  · intro hbad
    have hcond : (!inp.buffer_valid || decide (inp.raw_load = 0)) = true := by
      rcases hbad with hb | hz
      · simp [hb]
      · simp [hz]
    by_cases hel : u32_sub inp.now s.self.time_start > rConfig.max_validation_time
    · have hnle : ¬ u32_sub inp.now s.self.time_start ≤ rConfig.max_validation_time :=
        Nat.not_le.mpr hel
      simp [stateConnectionCheck, hmin, hmax, hcond, hel, hnle, SetFsmPhase, osDelay]
    · have hle : u32_sub inp.now s.self.time_start ≤ rConfig.max_validation_time :=
        Nat.not_lt.mp hel
      simp [stateConnectionCheck, hmin, hmax, hcond, hel, hle, osDelay]
  · rintro ⟨hv, hnz⟩
    simp [stateConnectionCheck, hmin, hmax, hv, hnz, loadcell_Tare, loadcell_EnableHighPrecision,
      osDelay]

theorem stateConnectionCheck_validation_witness :
    ((inputs_example 0 true 0 2000 20).raw_load ≠ INT32_MIN ∧
      (inputs_example 0 true 0 2000 20).raw_load ≠ INT32_MAX) ∧
    (stateConnectionCheck scenario_config (inputs_example 0 true 0 2000 20)
      (state_example false)).1 = LoopResult.Fail :=
  ⟨⟨by decide, by decide⟩,
    ((stateConnectionCheck_validation scenario_config (inputs_example 0 true 0 2000 20)
      (state_example false) (by decide) (by decide)).1 (Or.inr rfl)).1.mpr (by decide)⟩

/-- C6: when the filtered load read by `stateTapCheckCountDown` is at least
`countdown_load_error_value`, then whatever the clock and the countdown start are, the verdict
is `GoToMark` (so not `Fail`, `Abort` or `RunNext`), `pressed_too_soon` is true afterwards and
the stored countdown is the one from before the call. -/
theorem stateTapCheckCountDown_pressed_too_soon (rConfig : LoadcellConfig_t) (inp : Inputs)
    (s : State) (h : inp.high_pass_load ≥ rConfig.countdown_load_error_value) :
    (stateTapCheckCountDown rConfig inp s).1 = LoopResult.GoToMark ∧
    (stateTapCheckCountDown rConfig inp s).1 ≠ LoopResult.Fail ∧
    (stateTapCheckCountDown rConfig inp s).1 ≠ LoopResult.Abort ∧
    (stateTapCheckCountDown rConfig inp s).1 ≠ LoopResult.RunNext ∧
    (stateTapCheckCountDown rConfig inp s).2.rResult.pressed_too_soon = true ∧
    (stateTapCheckCountDown rConfig inp s).2.rResult.countdown = s.rResult.countdown := by
  simp [stateTapCheckCountDown, h]

theorem stateTapCheckCountDown_pressed_too_soon_witness :
    (inputs_example 5 true 3500 2500 20).high_pass_load
      ≥ scenario_config.countdown_load_error_value ∧
    (stateTapCheckCountDown scenario_config (inputs_example 5 true 3500 2500 20)
      (state_example false)).1 = LoopResult.GoToMark :=
  ⟨by decide,
    (stateTapCheckCountDown_pressed_too_soon scenario_config
      (inputs_example 5 true 3500 2500 20) (state_example false) (by decide)).1⟩

/-- C7: when the time since `time_start_tap` (in `uint32_t` arithmetic) has reached
`tap_timeout_ms`, `stateTapCheck` answers `GoToMark`, not `Fail`, whatever the filtered load is,
and leaves the progress of the result as it was. -/
theorem stateTapCheck_timeout (rConfig : LoadcellConfig_t) (inp : Inputs) (s : State)
    (h : u32_sub inp.now s.self.time_start_tap ≥ rConfig.tap_timeout_ms) :
    (stateTapCheck rConfig inp s).1 = LoopResult.GoToMark ∧
    (stateTapCheck rConfig inp s).1 ≠ LoopResult.Fail ∧
    (stateTapCheck rConfig inp s).2.rResult.progress = s.rResult.progress := by
  simp [stateTapCheck, h]

theorem stateTapCheck_timeout_witness :
    u32_sub (inputs_example 5 true 1200 3000 20).now (state_example false).self.time_start_tap
      ≥ scenario_config.tap_timeout_ms ∧
    (stateTapCheck scenario_config (inputs_example 5 true 1200 3000 20)
      (state_example false)).1 = LoopResult.GoToMark :=
  ⟨by decide,
    (stateTapCheck_timeout scenario_config (inputs_example 5 true 1200 3000 20)
      (state_example false) (by decide)).1⟩

/-- C8: when `stateTapCheck` has not timed out, the verdict is `RunNext` exactly when
`tap_min_load_ok ≤ load ≤ tap_max_load_ok` and `RunCurrent` otherwise. With
`tap_min_load_ok ≤ tap_max_load_ok`, a load equal to either bound advances; a load of
`tap_max_load_ok + 1` repeats. -/
theorem stateTapCheck_closed_range (rConfig : LoadcellConfig_t) (inp : Inputs) (s : State)
    (h : u32_sub inp.now s.self.time_start_tap < rConfig.tap_timeout_ms) :
    ((stateTapCheck rConfig inp s).1 = LoopResult.RunNext ↔
      rConfig.tap_min_load_ok ≤ inp.high_pass_load ∧
        inp.high_pass_load ≤ rConfig.tap_max_load_ok) ∧
    ((stateTapCheck rConfig inp s).1 = LoopResult.RunCurrent ↔
      ¬ (rConfig.tap_min_load_ok ≤ inp.high_pass_load ∧
        inp.high_pass_load ≤ rConfig.tap_max_load_ok)) ∧
    (rConfig.tap_min_load_ok ≤ rConfig.tap_max_load_ok →
      inp.high_pass_load = rConfig.tap_min_load_ok →
      (stateTapCheck rConfig inp s).1 = LoopResult.RunNext) ∧
    (rConfig.tap_min_load_ok ≤ rConfig.tap_max_load_ok →
      inp.high_pass_load = rConfig.tap_max_load_ok →
      (stateTapCheck rConfig inp s).1 = LoopResult.RunNext) ∧
    (inp.high_pass_load = rConfig.tap_max_load_ok + 1 →
      (stateTapCheck rConfig inp s).1 = LoopResult.RunCurrent) := by
  have hnot : ¬ rConfig.tap_timeout_ms ≤ u32_sub inp.now s.self.time_start_tap :=
    Nat.not_le.mpr h
  have hverdict : (stateTapCheck rConfig inp s).1 =
      if rConfig.tap_min_load_ok ≤ inp.high_pass_load ∧
          inp.high_pass_load ≤ rConfig.tap_max_load_ok
        then LoopResult.RunNext else LoopResult.RunCurrent := by
    by_cases hr : rConfig.tap_min_load_ok ≤ inp.high_pass_load ∧
        inp.high_pass_load ≤ rConfig.tap_max_load_ok
    · simp [stateTapCheck, hnot, IsInClosedRange, hr.1, hr.2]
    · rw [if_neg hr]
      by_cases h1 : rConfig.tap_min_load_ok ≤ inp.high_pass_load
      · have h2 : ¬ inp.high_pass_load ≤ rConfig.tap_max_load_ok := fun h2 => hr ⟨h1, h2⟩
        simp [stateTapCheck, hnot, IsInClosedRange, h1, h2]
      · simp [stateTapCheck, hnot, IsInClosedRange, h1]
  refine ⟨?_, ?_, ?_, ?_, ?_⟩
  · rw [hverdict]; split_ifs with hr <;> simp [hr]
  · rw [hverdict]; split_ifs with hr <;> simp [hr]
  · intro hle heq
    rw [hverdict, if_pos ⟨by omega, by omega⟩]
  · intro hle heq
    rw [hverdict, if_pos ⟨by omega, by omega⟩]
  · intro heq
    rw [hverdict, if_neg (by omega)]

theorem stateTapCheck_closed_range_witness :
    u32_sub (inputs_example 5 true 2000 100 20).now (state_example false).self.time_start_tap
      < scenario_config.tap_timeout_ms ∧
    (stateTapCheck scenario_config (inputs_example 5 true 2000 100 20)
      (state_example false)).1 = LoopResult.RunNext :=
  ⟨by decide,
    (stateTapCheck_closed_range scenario_config (inputs_example 5 true 2000 100 20)
      (state_example false) (by decide)).1.mpr (by decide)⟩

/-- C9: whatever target `t` hotend 0 has before construction, the target is 0 once the part is
constructed, and it is `t` again once the part has been destroyed without any step. -/
theorem ctor_dtor_hotend0_target (time : Nat) (ind : Indeterminate)
    (result : SelftestLoadcell_t) (hw : Hardware) :
    (CSelftestPart_Loadcell_ctor time ind result hw).hw.temp_hotend_target 0 = 0 ∧
    (CSelftestPart_Loadcell_dtor
      (CSelftestPart_Loadcell_ctor time ind result hw)).temp_hotend_target 0
      = hw.temp_hotend_target 0 := by
  simp [CSelftestPart_Loadcell_ctor, CSelftestPart_Loadcell_dtor, setTargetHotend,
    endstops_enable]

/-- C10: with `0 < tap_min_load_ok ≤ tap_max_load_ok`, when `stateTapCheck` answers `RunNext`
on the load `l` and `stateTapOk` runs next, the progress of the result is
`scale_percent_avoid_overflow l 0 tap_min_load_ok`, and that value is 100. -/
theorem tapCheck_tapOk_progress (rConfig : LoadcellConfig_t) (inp inpOk : Inputs) (s : State)
    (hpos : 0 < rConfig.tap_min_load_ok)
    (_hle : rConfig.tap_min_load_ok ≤ rConfig.tap_max_load_ok)
    (hnext : (stateTapCheck rConfig inp s).1 = LoopResult.RunNext) :
    (((stateTapOk rConfig inpOk (stateTapCheck rConfig inp s).2).2.rResult.progress : Nat) : Int)
      = scale_percent_avoid_overflow inp.high_pass_load 0 rConfig.tap_min_load_ok ∧
    scale_percent_avoid_overflow inp.high_pass_load 0 rConfig.tap_min_load_ok = 100 ∧
    (stateTapOk rConfig inpOk (stateTapCheck rConfig inp s).2).1 = LoopResult.RunNext := by
  by_cases hto : u32_sub inp.now s.self.time_start_tap ≥ rConfig.tap_timeout_ms
  · simp [stateTapCheck, hto] at hnext
  · have hrange : rConfig.tap_min_load_ok ≤ inp.high_pass_load := by
      by_contra hlt
      simp [stateTapCheck, hto, IsInClosedRange, hlt] at hnext
    have hscale : scale_percent_avoid_overflow inp.high_pass_load 0 rConfig.tap_min_load_ok
        = 100 := by
      have h1 : ¬ inp.high_pass_load ≤ 0 := by omega
      simp [scale_percent_avoid_overflow, h1, hrange]
    refine ⟨?_, hscale, rfl⟩
    simp [stateTapOk, stateTapCheck, hto, hscale, to_u8]

theorem tapCheck_tapOk_progress_witness :
    (0 < scenario_config.tap_min_load_ok ∧
      scenario_config.tap_min_load_ok ≤ scenario_config.tap_max_load_ok ∧
      (stateTapCheck scenario_config (inputs_example 5 true 1200 100 20)
        (state_example false)).1 = LoopResult.RunNext) ∧
    (stateTapOk scenario_config (inputs_example 5 true 1200 110 20)
      (stateTapCheck scenario_config (inputs_example 5 true 1200 100 20)
        (state_example false)).2).2.rResult.progress = 100 :=
  ⟨⟨by decide, by decide, by decide⟩, by
    have h := tapCheck_tapOk_progress scenario_config (inputs_example 5 true 1200 100 20)
      (inputs_example 5 true 1200 110 20) (state_example false) (by decide) (by decide)
      (by decide)
    have h2 := h.1.trans h.2.1
    exact_mod_cast h2⟩

/-! ### Countdown arithmetic -/

theorem u32_sub_lt (a b : Nat) : u32_sub a b < 4294967296 := by
  unfold u32_sub UINT32_MOD
  exact Nat.mod_lt _ (by decide)

/-- Below the error load, the countdown `stateTapCheckCountDown` stores is the one computed by
lines 219 to 221. -/
theorem stateTapCheckCountDown_stored (rConfig : LoadcellConfig_t) (inp : Inputs) (s : State)
    (h : inp.high_pass_load < rConfig.countdown_load_error_value) :
    (stateTapCheckCountDown rConfig inp s).2.rResult.countdown =
      (u32_sub rConfig.countdown_sec
        (to_u8 (min (u32_to_i32 (u32_sub inp.now s.self.time_start_countdown / 1000))
          (u32_to_i32 rConfig.countdown_sec)))) % UINT8_MOD := by
  have hn : ¬ rConfig.countdown_load_error_value ≤ inp.high_pass_load := not_le.mpr h
  unfold stateTapCheckCountDown
  simp only [ge_iff_le, hn, if_false]
  split_ifs <;> rfl

/-- Below the error load, the verdict of `stateTapCheckCountDown` is decided by line 225. -/
theorem stateTapCheckCountDown_verdict (rConfig : LoadcellConfig_t) (inp : Inputs) (s : State)
    (h : inp.high_pass_load < rConfig.countdown_load_error_value) :
    (stateTapCheckCountDown rConfig inp s).1 =
      if u32_sub inp.now s.self.time_start_countdown ≥ u32_mul rConfig.countdown_sec 1000
      then LoopResult.RunNext else LoopResult.RunCurrent := by
  have hn : ¬ rConfig.countdown_load_error_value ≤ inp.high_pass_load := not_le.mpr h
  unfold stateTapCheckCountDown
  simp only [ge_iff_le, hn, if_false]
  split_ifs <;> rfl

/-- The arithmetic of lines 220 and 221 for a countdown below `2^31` seconds: the two
narrowings to `uint8_t` amount to one reduction modulo 256 of the clamped difference. -/
theorem countdown_arith (c e : Nat) (he : e < 4294967296) (hc : c < 2147483648) :
    (u32_sub c (to_u8 (min (u32_to_i32 (e / 1000)) (u32_to_i32 c)))) % UINT8_MOD
      = (c - min (e / 1000) c) % 256 := by
  unfold u32_sub to_u8 u32_to_i32 UINT32_MOD UINT8_MOD
  have h1 : e / 1000 % 4294967296 = e / 1000 := Nat.mod_eq_of_lt (by omega)
  have h2 : c % 4294967296 = c := Nat.mod_eq_of_lt (by omega)
  rw [h1, h2]
  have h3 : e / 1000 < 2147483648 := by omega
  simp only [h3, hc, if_true]
  rcases le_total (e / 1000) c with hle | hle
  · have hmin : min ((e / 1000 : Nat) : Int) (c : Int) = ((e / 1000 : Nat) : Int) :=
      min_eq_left (by exact_mod_cast hle)
    rw [hmin, Nat.min_eq_left hle]
    omega
  · have hmin : min ((e / 1000 : Nat) : Int) (c : Int) = (c : Int) :=
      min_eq_right (by exact_mod_cast hle)
    rw [hmin, Nat.min_eq_right hle]
    omega

/-- C11, as stated, fails: with `countdown_sec = 300`, a load of 0 (below the error value 3000)
and no time elapsed, the stored countdown is 44, not `300 - min (0 / 1000) 300 = 300`, and it
is not what the narrowing left intact. -/
theorem stateTapCheckCountDown_countdown_wraps :
    (inputs_example 5 true 0 0 20).high_pass_load
      < scenario_config_long_countdown.countdown_load_error_value ∧
    (stateTapCheckCountDown scenario_config_long_countdown (inputs_example 5 true 0 0 20)
      (state_example false)).2.rResult.countdown = 44 ∧
    (stateTapCheckCountDown scenario_config_long_countdown (inputs_example 5 true 0 0 20)
      (state_example false)).2.rResult.countdown ≠
      scenario_config_long_countdown.countdown_sec -
        min (u32_sub (inputs_example 5 true 0 0 20).now
            (state_example false).self.time_start_countdown / 1000)
          scenario_config_long_countdown.countdown_sec := by
  decide

/-- C11, amended: for a load below `countdown_load_error_value` and
`elapsed_ms = now - time_start_countdown` in `uint32_t` arithmetic, when `countdown_sec ≤ 255`
the stored countdown is `countdown_sec - min (elapsed_ms / 1000) countdown_sec` and lies in
`[0, countdown_sec]`; for any `countdown_sec` below `2^31` it is that difference reduced
modulo 256. -/
theorem stateTapCheckCountDown_countdown_value (rConfig : LoadcellConfig_t) (inp : Inputs)
    (s : State) (h : inp.high_pass_load < rConfig.countdown_load_error_value) :
    (rConfig.countdown_sec ≤ 255 →
      (stateTapCheckCountDown rConfig inp s).2.rResult.countdown =
        rConfig.countdown_sec -
          min (u32_sub inp.now s.self.time_start_countdown / 1000) rConfig.countdown_sec ∧
      (stateTapCheckCountDown rConfig inp s).2.rResult.countdown ≤ rConfig.countdown_sec) ∧
    (rConfig.countdown_sec < 2147483648 →
      (stateTapCheckCountDown rConfig inp s).2.rResult.countdown =
        (rConfig.countdown_sec -
          min (u32_sub inp.now s.self.time_start_countdown / 1000) rConfig.countdown_sec)
          % 256) := by
  have hval : rConfig.countdown_sec < 2147483648 →
      (stateTapCheckCountDown rConfig inp s).2.rResult.countdown =
        (rConfig.countdown_sec -
          min (u32_sub inp.now s.self.time_start_countdown / 1000) rConfig.countdown_sec)
          % 256 := by
    intro hc
    rw [stateTapCheckCountDown_stored rConfig inp s h]
    exact countdown_arith _ _ (u32_sub_lt _ _) hc
  refine ⟨?_, hval⟩
  intro hc
  have hv := hval (by omega)
  have hlt : rConfig.countdown_sec -
      min (u32_sub inp.now s.self.time_start_countdown / 1000) rConfig.countdown_sec < 256 := by
    omega
  rw [Nat.mod_eq_of_lt hlt] at hv
  exact ⟨hv, by rw [hv]; exact Nat.sub_le _ _⟩

theorem stateTapCheckCountDown_countdown_value_witness :
    (inputs_example 5 true 0 2500 20).high_pass_load
      < scenario_config.countdown_load_error_value ∧
    (stateTapCheckCountDown scenario_config (inputs_example 5 true 0 2500 20)
      (state_example false)).2.rResult.countdown =
      scenario_config.countdown_sec -
        min (u32_sub (inputs_example 5 true 0 2500 20).now
            (state_example false).self.time_start_countdown / 1000)
          scenario_config.countdown_sec :=
  ⟨by decide,
    ((stateTapCheckCountDown_countdown_value scenario_config (inputs_example 5 true 0 2500 20)
      (state_example false) (by decide)).1 (by decide)).1⟩

/-- C12: `stateTapOk` returns `RunNext` and leaves progress, countdown and `pressed_too_soon`
of the result as they were; run after `stateTapCheck`, it keeps the progress that
`stateTapCheck` wrote. -/
theorem stateTapOk_keeps_result (rConfig : LoadcellConfig_t) (inp inpCheck : Inputs)
    (s : State) :
    (stateTapOk rConfig inp s).1 = LoopResult.RunNext ∧
    (stateTapOk rConfig inp s).2.rResult = s.rResult ∧
    (stateTapOk rConfig inp s).2.rResult.progress = s.rResult.progress ∧
    (stateTapOk rConfig inp s).2.rResult.countdown = s.rResult.countdown ∧
    (stateTapOk rConfig inp s).2.rResult.pressed_too_soon = s.rResult.pressed_too_soon ∧
    (stateTapOk rConfig inp (stateTapCheck rConfig inpCheck s).2).2.rResult.progress =
      (stateTapCheck rConfig inpCheck s).2.rResult.progress :=
  ⟨rfl, rfl, rfl, rfl, rfl, rfl⟩

/-! ### Cooldown and the fans -/

/-- Calls of `stateCooldown` change nothing. -/
theorem run_cooldown_calls (rConfig : LoadcellConfig_t) (inps : List Inputs) (s : State) :
    run rConfig (cooldown_calls inps) s = s := by
  induction inps with
  | nil => rfl
  | cons inp rest ih =>
    have hstep : (invoke rConfig StateId.Cooldown inp s).2 = s := by
      simp only [invoke, stateCooldown]
      split_ifs <;> rfl
    simp only [cooldown_calls, List.map_cons, run] at ih ⊢
    rw [hstep]
    exact ih

/-- C13, as stated, fails: the print fan is in selftest mode before `stateCooldownInit` and the
hotend is at 60 degrees with `cool_temp` 50. After `stateCooldownInit`, one `stateCooldown` call
and `stateCooldownDeinit` the print fan is not in selftest mode any more. -/
theorem cooldown_releases_earlier_override :
    state_print_fan_overridden.hw.print_fan.selftest_mode = true ∧
    (stateCooldownDeinit scenario_config (inputs_example 5 true 0 30 40)
      (run scenario_config (cooldown_calls [inputs_example 5 true 0 20 40])
        (stateCooldownInit scenario_config (inputs_example 5 true 0 10 60)
          state_print_fan_overridden).2)).2.hw.print_fan.selftest_mode
      ≠ state_print_fan_overridden.hw.print_fan.selftest_mode := by
  decide

/-- C13, amended: with neither fan in selftest mode before `stateCooldownInit`. After
`stateCooldownInit` both fans are in selftest mode exactly when the temperature is above
`cool_temp`, then at power 255, and `need_cooling` records it; otherwise the fans are untouched.
`stateCooldownDeinit` takes both fans out of selftest mode when `need_cooling` is set and leaves
them untouched otherwise. After `stateCooldownInit`, any number of `stateCooldown` calls and
`stateCooldownDeinit`, each fan's selftest mode is what it was before `stateCooldownInit`. -/
theorem cooldown_fan_balance (rConfig : LoadcellConfig_t) (inpInit inpDeinit : Inputs)
    (inps : List Inputs) (s : State)
    (hp : s.hw.print_fan.selftest_mode = false)
    (hh : s.hw.heatbreak_fan.selftest_mode = false) :
    (((stateCooldownInit rConfig inpInit s).2.hw.print_fan.selftest_mode = true ∧
        (stateCooldownInit rConfig inpInit s).2.hw.heatbreak_fan.selftest_mode = true) ↔
      inpInit.degHotend rConfig.tool_nr > (rConfig.cool_temp : ℚ)) ∧
    ((stateCooldownInit rConfig inpInit s).2.self.need_cooling = true ↔
      inpInit.degHotend rConfig.tool_nr > (rConfig.cool_temp : ℚ)) ∧
    (inpInit.degHotend rConfig.tool_nr > (rConfig.cool_temp : ℚ) →
      (stateCooldownInit rConfig inpInit s).2.hw.print_fan.pwm = 255 ∧
      (stateCooldownInit rConfig inpInit s).2.hw.heatbreak_fan.pwm = 255) ∧
    (¬ inpInit.degHotend rConfig.tool_nr > (rConfig.cool_temp : ℚ) →
      (stateCooldownInit rConfig inpInit s).2.hw.print_fan = s.hw.print_fan ∧
      (stateCooldownInit rConfig inpInit s).2.hw.heatbreak_fan = s.hw.heatbreak_fan) ∧
    (∀ t : State, t.self.need_cooling = true →
      (stateCooldownDeinit rConfig inpDeinit t).2.hw.print_fan.selftest_mode = false ∧
      (stateCooldownDeinit rConfig inpDeinit t).2.hw.heatbreak_fan.selftest_mode = false) ∧
    (∀ t : State, t.self.need_cooling = false →
      (stateCooldownDeinit rConfig inpDeinit t).2.hw.print_fan = t.hw.print_fan ∧
      (stateCooldownDeinit rConfig inpDeinit t).2.hw.heatbreak_fan = t.hw.heatbreak_fan) ∧
    (stateCooldownDeinit rConfig inpDeinit
        (run rConfig (cooldown_calls inps)
          (stateCooldownInit rConfig inpInit s).2)).2.hw.print_fan.selftest_mode
      = s.hw.print_fan.selftest_mode ∧
    (stateCooldownDeinit rConfig inpDeinit
        (run rConfig (cooldown_calls inps)
          (stateCooldownInit rConfig inpInit s).2)).2.hw.heatbreak_fan.selftest_mode
      = s.hw.heatbreak_fan.selftest_mode := by
  rw [run_cooldown_calls]
  have hdeinit_on : ∀ t : State, t.self.need_cooling = true →
      (stateCooldownDeinit rConfig inpDeinit t).2.hw.print_fan.selftest_mode = false ∧
      (stateCooldownDeinit rConfig inpDeinit t).2.hw.heatbreak_fan.selftest_mode = false := by
    intro t ht
    simp [stateCooldownDeinit, ht, CFanCtl.ExitSelftestMode]
  have hdeinit_off : ∀ t : State, t.self.need_cooling = false →
      (stateCooldownDeinit rConfig inpDeinit t).2.hw.print_fan = t.hw.print_fan ∧
      (stateCooldownDeinit rConfig inpDeinit t).2.hw.heatbreak_fan = t.hw.heatbreak_fan := by
    intro t ht
    simp [stateCooldownDeinit, ht]
  by_cases htemp : inpInit.degHotend rConfig.tool_nr > (rConfig.cool_temp : ℚ)
  · have hneed : (stateCooldownInit rConfig inpInit s).2.self.need_cooling = true := by
      simp [stateCooldownInit, htemp]
    have hfans : (stateCooldownInit rConfig inpInit s).2.hw.print_fan.selftest_mode = true ∧
        (stateCooldownInit rConfig inpInit s).2.hw.heatbreak_fan.selftest_mode = true ∧
        (stateCooldownInit rConfig inpInit s).2.hw.print_fan.pwm = 255 ∧
        (stateCooldownInit rConfig inpInit s).2.hw.heatbreak_fan.pwm = 255 := by
      simp [stateCooldownInit, htemp, CFanCtl.EnterSelftestMode, CFanCtl.SelftestSetPWM]
    refine ⟨⟨fun _ => htemp, fun _ => ⟨hfans.1, hfans.2.1⟩⟩, ⟨fun _ => htemp, fun _ => hneed⟩,
      fun _ => ⟨hfans.2.2.1, hfans.2.2.2⟩, fun hno => absurd htemp hno, hdeinit_on,
      hdeinit_off, ?_, ?_⟩
    · rw [(hdeinit_on _ hneed).1, hp]
    · rw [(hdeinit_on _ hneed).2, hh]
  · have hneed : (stateCooldownInit rConfig inpInit s).2.self.need_cooling = false := by
      simp [stateCooldownInit, htemp]
    have hfans : (stateCooldownInit rConfig inpInit s).2.hw.print_fan = s.hw.print_fan ∧
        (stateCooldownInit rConfig inpInit s).2.hw.heatbreak_fan = s.hw.heatbreak_fan := by
      simp [stateCooldownInit, htemp, marlin_server_set_temp_to_display, setTargetHotend,
        SetFsmPhase]
    refine ⟨⟨fun hon => ?_, fun hon => absurd hon htemp⟩,
      ⟨fun hon => ?_, fun hon => absurd hon htemp⟩, fun hon => absurd hon htemp,
      fun _ => hfans, hdeinit_on, hdeinit_off, ?_, ?_⟩
    · rw [hfans.1, hp] at hon
      exact absurd hon.1 (by decide)
    · rw [hneed] at hon
      exact absurd hon (by decide)
    · rw [(hdeinit_off _ hneed).1, hfans.1]
    · rw [(hdeinit_off _ hneed).2, hfans.2]

theorem cooldown_fan_balance_witness :
    ((state_example false).hw.print_fan.selftest_mode = false ∧
      (state_example false).hw.heatbreak_fan.selftest_mode = false) ∧
    (stateCooldownDeinit scenario_config (inputs_example 5 true 0 30 40)
        (run scenario_config (cooldown_calls [inputs_example 5 true 0 20 40])
          (stateCooldownInit scenario_config (inputs_example 5 true 0 10 60)
            (state_example false)).2)).2.hw.print_fan.selftest_mode
      = (state_example false).hw.print_fan.selftest_mode :=
  ⟨⟨by decide, by decide⟩,
    (cooldown_fan_balance scenario_config (inputs_example 5 true 0 10 60)
      (inputs_example 5 true 0 30 40) [inputs_example 5 true 0 20 40] (state_example false)
      (by decide) (by decide)).2.2.2.2.2.2.1⟩

/-- C14: for a load below `countdown_load_error_value` and `countdown_sec ≤ 255` (so that
`countdown_sec * 1000` does not overflow), `stateTapCheckCountDown` answers `RunNext` exactly
when the countdown it stores is 0 and `RunCurrent` exactly when that countdown is at least 1. -/
theorem stateTapCheckCountDown_verdict_matches_countdown (rConfig : LoadcellConfig_t)
    (inp : Inputs) (s : State)
    (h : inp.high_pass_load < rConfig.countdown_load_error_value)
    (hc : rConfig.countdown_sec ≤ 255) :
    ((stateTapCheckCountDown rConfig inp s).1 = LoopResult.RunNext ↔
      (stateTapCheckCountDown rConfig inp s).2.rResult.countdown = 0) ∧
    ((stateTapCheckCountDown rConfig inp s).1 = LoopResult.RunCurrent ↔
      1 ≤ (stateTapCheckCountDown rConfig inp s).2.rResult.countdown) := by
  have hstored : (stateTapCheckCountDown rConfig inp s).2.rResult.countdown =
      (rConfig.countdown_sec -
        min (u32_sub inp.now s.self.time_start_countdown / 1000) rConfig.countdown_sec)
        % 256 := by
    rw [stateTapCheckCountDown_stored rConfig inp s h]
    exact countdown_arith _ _ (u32_sub_lt _ _) (by omega)
  have hmul : u32_mul rConfig.countdown_sec 1000 = rConfig.countdown_sec * 1000 := by
    unfold u32_mul UINT32_MOD
    exact Nat.mod_eq_of_lt (by omega)
  rw [hstored, stateTapCheckCountDown_verdict rConfig inp s h, hmul]
  generalize u32_sub inp.now s.self.time_start_countdown = e
  by_cases hdone : e ≥ rConfig.countdown_sec * 1000
  · have hmin : min (e / 1000) rConfig.countdown_sec = rConfig.countdown_sec :=
      Nat.min_eq_right (by omega)
    simp [hdone, hmin]
  · have hmin : min (e / 1000) rConfig.countdown_sec = e / 1000 :=
      Nat.min_eq_left (by omega)
    have hpos : 1 ≤ (rConfig.countdown_sec - e / 1000) % 256 := by omega
    rw [if_neg hdone, hmin]
    constructor
    · constructor
      · intro hfalse
        exact absurd hfalse (by decide)
      · intro hzero
        omega
    · constructor
      · intro _
        exact hpos
      · intro _
        rfl

theorem stateTapCheckCountDown_verdict_matches_countdown_witness :
    ((inputs_example 5 true 0 5000 20).high_pass_load
        < scenario_config.countdown_load_error_value ∧
      scenario_config.countdown_sec ≤ 255) ∧
    (stateTapCheckCountDown scenario_config (inputs_example 5 true 0 5000 20)
      (state_example false)).1 = LoopResult.RunNext :=
  ⟨⟨by decide, by decide⟩,
    (stateTapCheckCountDown_verdict_matches_countdown scenario_config
      (inputs_example 5 true 0 5000 20) (state_example false) (by decide)
      (by decide)).1.mpr (by decide)⟩

/-! ### All seventeen state functions -/

/-- A state function that finds `pressed_too_soon` set leaves it set. -/
theorem invoke_keeps_pressed_too_soon (rConfig : LoadcellConfig_t) (st : StateId)
    (inp : Inputs) (s : State) (h : s.rResult.pressed_too_soon = true) :
    (invoke rConfig st inp s).2.rResult.pressed_too_soon = true := by
  cases st
  case MoveUp => simp only [invoke, stateMoveUp]; split_ifs <;> exact h
  case MoveUpWaitFinish => simp only [invoke, stateMoveUpWaitFinish]; split_ifs <;> exact h
  case ToolSelectInit => simp only [invoke, stateToolSelectInit]; split_ifs <;> exact h
  case ToolSelectWaitFinish =>
    simp only [invoke, stateToolSelectWaitFinish]; split_ifs <;> exact h
  case ConnectionCheck => simp only [invoke, stateConnectionCheck]; split_ifs <;> exact h
  case CooldownInit => simp only [invoke, stateCooldownInit]; split_ifs <;> exact h
  case Cooldown => simp only [invoke, stateCooldown]; split_ifs <;> exact h
  case CooldownDeinit => simp only [invoke, stateCooldownDeinit]; split_ifs <;> exact h
  case AskAbort => simp only [invoke, stateAskAbort]; split <;> exact h
  case TapCheckCountDown =>
    simp only [invoke, stateTapCheckCountDown]; split_ifs <;> first | rfl | exact h
  case TapCheck => simp only [invoke, stateTapCheck]; split_ifs <;> exact h
  case MoveUpInit => exact h
  case CycleMark => exact h
  case AskAbortInit => exact h
  case TapCheckCountDownInit => rfl
  case TapCheckInit => exact h
  case TapOk => exact h

/-- A sequence of state-function calls that starts with `pressed_too_soon` set ends with it
set. -/
theorem run_keeps_pressed_too_soon (rConfig : LoadcellConfig_t)
    (steps : List (StateId × Inputs)) :
    ∀ s : State, s.rResult.pressed_too_soon = true →
      (run rConfig steps s).rResult.pressed_too_soon = true := by
  induction steps with
  | nil => intro s h; exact h
  | cons step rest ih =>
    intro s h
    obtain ⟨st, inp⟩ := step
    exact ih _ (invoke_keeps_pressed_too_soon rConfig st inp s h)

/-- C15: no state function clears `pressed_too_soon`: for each of the seventeen state
functions, if the flag is set before the call it is set after it. `stateTapCheckCountDownInit`
sets it, so after that call and any further sequence of state-function calls the flag is
set. -/
theorem pressed_too_soon_never_cleared (rConfig : LoadcellConfig_t) (st : StateId)
    (inp inpInit : Inputs) (steps : List (StateId × Inputs)) (s t : State)
    (h : s.rResult.pressed_too_soon = true) :
    (invoke rConfig st inp s).2.rResult.pressed_too_soon = true ∧
    (stateTapCheckCountDownInit rConfig inpInit t).2.rResult.pressed_too_soon = true ∧
    (run rConfig steps
      (stateTapCheckCountDownInit rConfig inpInit t).2).rResult.pressed_too_soon = true :=
  ⟨invoke_keeps_pressed_too_soon rConfig st inp s h, rfl,
    run_keeps_pressed_too_soon rConfig steps _ rfl⟩

theorem pressed_too_soon_never_cleared_witness :
    (stateTapCheckCountDownInit scenario_config (inputs_example 5 true 0 0 20)
      (state_example false)).2.rResult.pressed_too_soon = true ∧
    (run scenario_config
      [(StateId.TapCheckCountDown, inputs_example 5 true 0 5000 20),
        (StateId.TapCheckInit, inputs_example 5 true 0 5010 20),
        (StateId.TapCheck, inputs_example 5 true 1200 5500 20),
        (StateId.TapOk, inputs_example 5 true 1200 5510 20)]
      (stateTapCheckCountDownInit scenario_config (inputs_example 5 true 0 0 20)
        (state_example false)).2).rResult.pressed_too_soon = true :=
  ⟨rfl,
    (pressed_too_soon_never_cleared scenario_config StateId.TapOk
      (inputs_example 5 true 1200 5510 20) (inputs_example 5 true 0 0 20)
      [(StateId.TapCheckCountDown, inputs_example 5 true 0 5000 20),
        (StateId.TapCheckInit, inputs_example 5 true 0 5010 20),
        (StateId.TapCheck, inputs_example 5 true 1200 5500 20),
        (StateId.TapOk, inputs_example 5 true 1200 5510 20)]
      (stateTapCheckCountDownInit scenario_config (inputs_example 5 true 0 0 20)
        (state_example false)).2
      (state_example false) rfl).2.2⟩

/-- C16: which state function can return which verdict, for all configurations, inputs and
states. `Fail` comes from `stateConnectionCheck` only, `Abort` from `stateAskAbort` only and
only when the button response is `Abort`, `MarkLoop` from `stateCycleMark` only, `GoToMark`
from `stateTapCheckCountDown` and `stateTapCheck` only; every other state function returns
`RunNext` or `RunCurrent`. In particular none of the five state functions of the countdown and
tap cycle returns `Fail`. -/
theorem invoke_verdicts (rConfig : LoadcellConfig_t) (st : StateId) (inp : Inputs)
    (s : State) :
    ((invoke rConfig st inp s).1 = LoopResult.Fail → st = StateId.ConnectionCheck) ∧
    ((invoke rConfig st inp s).1 = LoopResult.Abort →
      st = StateId.AskAbort ∧ inp.button = Response.Abort) ∧
    ((invoke rConfig st inp s).1 = LoopResult.MarkLoop → st = StateId.CycleMark) ∧
    ((invoke rConfig st inp s).1 = LoopResult.GoToMark →
      st = StateId.TapCheckCountDown ∨ st = StateId.TapCheck) ∧
    (st ≠ StateId.ConnectionCheck → st ≠ StateId.AskAbort → st ≠ StateId.CycleMark →
      st ≠ StateId.TapCheckCountDown → st ≠ StateId.TapCheck →
      (invoke rConfig st inp s).1 = LoopResult.RunNext ∨
        (invoke rConfig st inp s).1 = LoopResult.RunCurrent) ∧
    ((st = StateId.TapCheckCountDownInit ∨ st = StateId.TapCheckCountDown ∨
        st = StateId.TapCheckInit ∨ st = StateId.TapCheck ∨ st = StateId.TapOk) →
      (invoke rConfig st inp s).1 ≠ LoopResult.Fail) := by
  cases st
  case MoveUpInit => simp [invoke, stateMoveUpInit]
  case MoveUp => simp only [invoke, stateMoveUp]; split_ifs <;> simp
  case MoveUpWaitFinish => simp only [invoke, stateMoveUpWaitFinish]; split_ifs <;> simp
  case ToolSelectInit => simp only [invoke, stateToolSelectInit]; split_ifs <;> simp
  case ToolSelectWaitFinish =>
    simp only [invoke, stateToolSelectWaitFinish]; split_ifs <;> simp
  case ConnectionCheck => simp only [invoke, stateConnectionCheck]; split_ifs <;> simp
  case CooldownInit => simp only [invoke, stateCooldownInit]; split_ifs <;> simp
  case Cooldown => simp only [invoke, stateCooldown]; split_ifs <;> simp
  case CooldownDeinit => simp only [invoke, stateCooldownDeinit]; split_ifs <;> simp
  case CycleMark => simp [invoke, stateCycleMark]
  case AskAbortInit => simp [invoke, stateAskAbortInit]
  case AskAbort =>
    simp only [invoke, stateAskAbort]
    cases hb : inp.button <;> simp
  case TapCheckCountDownInit => simp [invoke, stateTapCheckCountDownInit]
  case TapCheckCountDown => simp only [invoke, stateTapCheckCountDown]; split_ifs <;> simp
  case TapCheckInit => simp [invoke, stateTapCheckInit]
  case TapCheck => simp only [invoke, stateTapCheck]; split_ifs <;> simp
  case TapOk => simp [invoke, stateTapOk]

theorem invoke_verdicts_witness :
    (invoke scenario_config StateId.AskAbort
      { inputs_example 5 true 0 0 20 with button := Response.Abort }
      (state_example false)).1 = LoopResult.Abort ∧
    (StateId.AskAbort = StateId.AskAbort ∧
      ({ inputs_example 5 true 0 0 20 with button := Response.Abort } : Inputs).button
        = Response.Abort) :=
  ⟨rfl,
    (invoke_verdicts scenario_config StateId.AskAbort
      { inputs_example 5 true 0 0 20 with button := Response.Abort }
      (state_example false)).2.1 rfl⟩

end Loadcell
